import Mathlib

/-!
Verification of the backend bootstrap of `src/startup/backend/server.js`.

The file contains two variants of the same Express application:
the classic long-running server (lines 1-133) and the serverless
(Vercel) variant (lines 134-270).  The definitions below are a shallow
embedding of the connection bootstrap, index migration, CORS policy,
session-cookie configuration and terminal error handlers of both
variants.

Convention for JavaScript optional values: a value that JavaScript
treats as falsy in the relevant check (`undefined`, or the other falsy
primitives that never occur for these fields in practice) is embedded
as `none`; `x || d` is embedded as `Option.getD x d` and a `!x` guard
as a match on `none`.
-/

/-- Result of the single `mongoose.connect` attempt, as observed by an
awaiting caller: either a resolved connection handle (identified by a
natural number) or a rejection. -/
inductive CResult where
  | ok (handle : Nat)
  | rejected
deriving DecidableEq

/-- The process-wide connection cache of the serverless variant,
`global.mongoose = { conn: null, promise: null }` (server.js lines
145-149) together with a counter of how many times the underlying
`mongoose.connect` primitive has been invoked.  `promise` records
whether `cached.promise` is non-null. -/
structure CacheState where
  conn : Option Nat
  promise : Bool
  connectCalls : Nat
deriving DecidableEq

/-- The cache as initialised on a cold start: `{ conn: null, promise: null }`. -/
def cacheInit : CacheState := { conn := none, promise := false, connectCalls := 0 }

/-- One complete sequential call of `connectDB` (server.js lines
151-187) run to completion without interleaving: return the cached
connection if present, otherwise start the connect attempt unless one
is already cached, then await the attempt.  `outcome` is the settled
result of the single underlying `mongoose.connect` attempt.  On
success the resolved handle is stored in `conn`; on rejection
`cached.promise` is left in place (the code never clears it). -/
def connectDB (outcome : CResult) (s : CacheState) : CacheState × CResult :=
  match s.conn with
  | some c => (s, .ok c)
  | none =>
    let s1 := if s.promise then s
              else { s with promise := true, connectCalls := s.connectCalls + 1 }
    match outcome with
    | .ok h => ({ s1 with conn := some h }, .ok h)
    | .rejected => (s1, .rejected)

/-- Iterated sequential calls of `connectDB` from a cold start,
collecting each call's result in order. -/
def connectDBCalls (outcome : CResult) : Nat → CacheState × List CResult
  | 0 => (cacheInit, [])
  | n + 1 =>
    let p := connectDBCalls outcome n
    let q := connectDB outcome p.1
    (q.1, p.2 ++ [q.2])

/-- Phases of a (possibly concurrent) `connectDB` call.  JavaScript
runs the body of `connectDB` synchronously up to the first `await`, so
a call decomposes into an atomic `start` phase (lines 152-154: check
`cached.conn`, then install `cached.promise`, invoking
`mongoose.connect` only if no attempt is cached) and a `finish` phase
(lines 185-186: resume from `await cached.promise`, store the handle
and return it).  An arbitrary interleaving of calls is a list of such
phases. -/
inductive CDEv where
  | start
  | finish
deriving DecidableEq

/-- Effect of one phase on the cache, together with the results
returned to callers during that phase.  A `start` phase returns
immediately when `cached.conn` is set; otherwise it installs the
attempt (at most once) and returns nothing yet.  A `finish` phase only
does something when an attempt exists to be awaited. -/
def cdStep (outcome : CResult) (s : CacheState) : CDEv → CacheState × List CResult
  | .start =>
    match s.conn with
    | some c => (s, [.ok c])
    | none =>
      if s.promise then (s, [])
      else ({ s with promise := true, connectCalls := s.connectCalls + 1 }, [])
  | .finish =>
    if s.promise then
      match outcome with
      | .ok h => ({ s with conn := some h }, [.ok h])
      | .rejected => (s, [.rejected])
    else (s, [])

/-- Run an interleaving of call phases from a given cache state,
collecting all results returned to callers. -/
def cdRunFrom (outcome : CResult) (s : CacheState) : List CDEv → CacheState × List CResult
  | [] => (s, [])
  | e :: es =>
    let p := cdStep outcome s e
    let q := cdRunFrom outcome p.1 es
    (q.1, p.2 ++ q.2)

/-- Run an interleaving of call phases from a cold start. -/
def cdRun (outcome : CResult) (tr : List CDEv) : CacheState × List CResult :=
  cdRunFrom outcome cacheInit tr

/-- Outcomes of the three index-maintenance steps as the database
reports them: step 1 `User.updateMany`, step 2
`User.collection.dropIndex("supabaseUserId_1")`, step 3
`User.syncIndexes` (server.js lines 19-39 and 160-179). -/
structure MigrationEnv where
  updateManyResult : Except String Unit
  dropIndexResult : Except String Unit
  syncIndexesResult : Except String Unit

/-- Observable events of the migration sequence: each database call as
it is issued, plus the two log-and-swallow points (the `.catch` on
`dropIndex` and the outer `catch`). -/
inductive MigEv where
  | updateManyCall
  | dropIndexCall
  | logIndexNotFound
  | syncIndexesCall
  | logMaintSkipped (msg : String)
deriving DecidableEq

/-- Body of the `try` block (server.js lines 19-36 resp. 160-176): run
`updateMany`; if it throws, the exception escapes the block.  Then run
`dropIndex` with its own `.catch` that logs and swallows any failure.
Then run `syncIndexes`; if it throws, the exception escapes the block.
The second component is the exception escaping the block, if any. -/
def migrationBody (env : MigrationEnv) : List MigEv × Except String Unit :=
  match env.updateManyResult with
  | .error e => ([.updateManyCall], .error e)
  | .ok _ =>
    let dropEvs : List MigEv :=
      match env.dropIndexResult with
      | .ok _ => [.dropIndexCall]
      | .error _ => [.dropIndexCall, .logIndexNotFound]
    match env.syncIndexesResult with
    | .error e => ([.updateManyCall] ++ dropEvs ++ [.syncIndexesCall], .error e)
    | .ok _ => ([.updateManyCall] ++ dropEvs ++ [.syncIndexesCall], .ok ())

/-- The full migration with its surrounding `try`/`catch` (server.js
lines 19-39 resp. 160-179): an exception escaping the body is caught
and logged, so the second component — what escapes the whole
migration — is always `Except.ok`. -/
def runMigration (env : MigrationEnv) : List MigEv × Except String Unit :=
  match migrationBody env with
  | (evs, .ok _) => (evs, .ok ())
  | (evs, .error msg) => (evs ++ [.logMaintSkipped msg], .ok ())

/-- Events of the classic variant's module evaluation: the single
`mongoose.connect` call of line 14, the unconditional `app.listen` of
line 131, the asynchronous migration events of the `.then` handler,
and `process.exit(code)` from the `.catch` handler of lines 43-46. -/
inductive ClassicEv where
  | connectCall
  | listen
  | mig (e : MigEv)
  | processExit (code : Nat)
deriving DecidableEq

/-- Whether an event is a `process.exit`. -/
def ClassicEv.isExit : ClassicEv → Bool
  | .processExit _ => true
  | _ => false

/-- Environment of a classic startup: whether the initial
`mongoose.connect` resolves, and the outcomes of the migration steps. -/
structure ClassicEnv where
  connectOk : Bool
  migEnv : MigrationEnv

/-- Event trace of the classic variant (server.js lines 1-133).
Module evaluation synchronously invokes `mongoose.connect` (line 14)
and `app.listen` (line 131); only afterwards does the connect promise
settle.  On resolution the `.then` handler runs the migration (whose
own failures are caught internally); on rejection the `.catch` handler
calls `process.exit(1)`. -/
def classicStartup (env : ClassicEnv) : List ClassicEv :=
  [ClassicEv.connectCall, ClassicEv.listen] ++
    (if env.connectOk then (runMigration env.migEnv).1.map ClassicEv.mig
     else [ClassicEv.processExit 1])

/-- Value of the `supabaseUserId` field of a User document: absent,
the literal null placeholder, or a string value. -/
inductive FieldVal where
  | absent
  | null
  | str (s : String)
deriving DecidableEq

/-- MongoDB query semantics of the filter `{ supabaseUserId: null }`:
it matches documents whose field is literally null and documents
missing the field. -/
def matchesNullFilter : FieldVal → Bool
  | .absent => true
  | .null => true
  | .str _ => false

/-- Effect of `User.updateMany({ supabaseUserId: null }, { $unset:
{ supabaseUserId: "" } })` (server.js lines 23-26 resp. 164-167) on a
collection, each document represented by its `supabaseUserId` field:
every matching document has the field removed, every other document is
untouched. -/
def updateManyUnsetNull (docs : List FieldVal) : List FieldVal :=
  docs.map (fun d => if matchesNullFilter d then FieldVal.absent else d)

/-- Decision of the CORS `origin` callback: allow, or pass an `Error`
with the given message to the callback. -/
inductive CorsDecision where
  | allow
  | deny (msg : String)
deriving DecidableEq

/-- The allow-list of origins (server.js lines 57-61 resp. 196-200):
the configured frontend URL (possibly unset) and the two fixed local
development origins. -/
def allowedOrigins (clientUrl : Option String) : List (Option String) :=
  [clientUrl, some "http://localhost:5173", some "http://localhost:3000"]

/-- The CORS `origin` callback (server.js lines 65-70 resp. 204-208):
requests without an `Origin` header are allowed, origins on the
allow-list are allowed, every other origin is answered with
`Error("Not allowed by CORS")`. -/
def corsOrigin (clientUrl : Option String) (origin : Option String) : CorsDecision :=
  match origin with
  | none => .allow
  | some o =>
    if some o ∈ allowedOrigins clientUrl then .allow
    else .deny "Not allowed by CORS"

/-- A thrown error as the terminal error handlers see it: an optional
`status` field and an optional `message`. -/
structure ErrObj where
  status : Option Nat
  message : Option String
deriving DecidableEq

/-- The single JSON response a terminal error handler sends. -/
structure JsonResponse where
  status : Nat
  success : Bool
  message : String
deriving DecidableEq

/-- The classic variant's global error handler (server.js lines
121-127): `res.status(err.status || 500).json({ success: false,
message: err.message || "Internal Server Error" })`. -/
def classicErrorHandler (err : ErrObj) : JsonResponse :=
  { status := err.status.getD 500
    success := false
    message := err.message.getD "Internal Server Error" }

/-- The serverless variant's error handler (server.js lines 261-267):
`res.status(500).json({ success: false, message: err.message ||
"Internal Server Error" })` — the status is the constant 500. -/
def serverlessErrorHandler (err : ErrObj) : JsonResponse :=
  { status := 500
    success := false
    message := err.message.getD "Internal Server Error" }

/-- Cookie options of the session middleware. -/
structure CookieConfig where
  httpOnly : Bool
  secure : Bool
  sameSite : String
  maxAge : Nat
deriving DecidableEq

/-- Session middleware options relevant to the cookie and store
policy: cookie name, secret, store TTL (seconds) and cookie options.
The constant `resave`/`saveUninit` flags are not modelled. -/
structure SessionConfig where
  name : String
  secret : Option String
  storeTtl : Nat
  cookie : CookieConfig
deriving DecidableEq

/-- The classic variant's session configuration (server.js lines
77-96), as a function of `NODE_ENV` and `SESSION_SECRET`: secret falls
back to the hardcoded constant, store TTL is `14 * 24 * 60 * 60`
seconds, the cookie is httpOnly, secure exactly in production,
sameSite `"none"` in production and `"lax"` otherwise, maxAge
`1000 * 60 * 60 * 24` milliseconds. -/
def classicSessionConfig (nodeEnv sessionSecret : Option String) : SessionConfig :=
  { name := "startup.sid"
    secret := some (sessionSecret.getD "secret_fallback_key")
    storeTtl := 14 * 24 * 60 * 60
    cookie :=
      { httpOnly := true
        secure := decide (nodeEnv = some "production")
        sameSite := if nodeEnv = some "production" then "none" else "lax"
        maxAge := 1000 * 60 * 60 * 24 } }

/-- The serverless variant's session configuration (server.js lines
217-233): the secret is `SESSION_SECRET` passed through with no
fallback, store TTL is `14 * 24 * 60 * 60` seconds, the cookie is
httpOnly, always secure, sameSite always `"none"`, maxAge
`1000 * 60 * 60 * 24` milliseconds — no dependence on `NODE_ENV`. -/
def serverlessSessionConfig (sessionSecret : Option String) : SessionConfig :=
  { name := "startup.sid"
    secret := sessionSecret
    storeTtl := 14 * 24 * 60 * 60
    cookie :=
      { httpOnly := true
        secure := true
        sameSite := "none"
        maxAge := 1000 * 60 * 60 * 24 } }

/-- Process state of the serverless variant as requests are served:
the connection cache plus a count of `MongoStore.create` invocations
and the `mongoUrl` argument passed to each. -/
structure VercelState where
  cache : CacheState
  storeCreates : Nat
  storeUrls : List String
deriving DecidableEq

/-- Serverless process state on a cold start. -/
def vercelInit : VercelState := { cache := cacheInit, storeCreates := 0, storeUrls := [] }

/-- The serverless per-request session middleware (server.js lines
214-234): each request first awaits `connectDB()`; if that rejects the
middleware rejects and nothing more happens, otherwise the handler
body constructs a fresh session middleware whose store is built by
`MongoStore.create({ mongoUrl: process.env.MONGO_URI, ... })` — a new
store per request, from the raw connection string. -/
def sessionMiddlewareRequest (mongoUri : String) (outcome : CResult)
    (s : VercelState) : VercelState :=
  match connectDB outcome s.cache with
  | (c, .rejected) => { s with cache := c }
  | (c, .ok _) =>
    { cache := c
      storeCreates := s.storeCreates + 1
      storeUrls := s.storeUrls ++ [mongoUri] }

/-- Serve `n` requests through the serverless session middleware,
starting from a cold start. -/
def serveRequests (mongoUri : String) (outcome : CResult) : Nat → VercelState
  | 0 => vercelInit
  | n + 1 => sessionMiddlewareRequest mongoUri outcome (serveRequests mongoUri outcome n)

/-! ## Helper lemmas -/

/-- Migration events mapped into a classic startup trace contribute
nothing to any event count that is `false` on migration events. -/
theorem countP_map_mig_eq_zero (p : ClassicEv → Bool)
    (hp : ∀ e, p (ClassicEv.mig e) = false) (l : List MigEv) :
    (l.map ClassicEv.mig).countP p = 0 := by
  induction l with
  | nil => rfl
  | cons e es ih => simp [List.countP_cons, ih, hp]

/-- Whether an event is the `mongoose.connect` invocation. -/
def ClassicEv.isConnectCall : ClassicEv → Bool
  | .connectCall => true
  | _ => false

/-- Invariant of the serverless connection cache: the connect
primitive has been invoked at most once, not at all while no attempt
is cached, and a cached resolved handle is the handle the single
attempt resolved to. -/
def cdInv (outcome : CResult) (s : CacheState) : Prop :=
  s.connectCalls ≤ 1 ∧ (s.promise = false → s.connectCalls = 0) ∧
    (∀ h, s.conn = some h → outcome = CResult.ok h)

/-- Each phase of a `connectDB` call preserves the cache invariant,
and every successful result it hands a caller is the handle of the
single connect attempt. -/
theorem cdStep_inv (outcome : CResult) (s : CacheState) (e : CDEv)
    (hs : cdInv outcome s) :
    cdInv outcome (cdStep outcome s e).1 ∧
    ∀ r ∈ (cdStep outcome s e).2, ∀ h, r = CResult.ok h → outcome = CResult.ok h := by
  obtain ⟨h1, h2, h3⟩ := hs
  cases e with
  | start =>
    rcases hc : s.conn with _ | c
    · by_cases hp : s.promise = true
      · simp only [cdStep, hc, hp, if_true]
        exact ⟨⟨h1, h2, h3⟩, by simp⟩
      · simp only [cdStep, hc, if_neg hp]
        refine ⟨⟨?_, ?_, ?_⟩, by simp⟩
        · have h0 := h2 (by simpa using hp)
          simp [h0]
        · intro hfalse
          simp at hfalse
        · intro h hcon
          exact Option.noConfusion hcon
    · simp only [cdStep, hc]
      refine ⟨⟨h1, h2, h3⟩, ?_⟩
      intro r hr h heq
      simp only [List.mem_singleton] at hr
      subst hr
      obtain rfl : c = h := CResult.ok.inj heq
      exact h3 c hc
  | finish =>
    by_cases hp : s.promise = true
    · cases outcome with
      | ok h0 =>
        simp only [cdStep, hp, if_true]
        refine ⟨⟨h1, fun hfalse => by simp at hfalse, ?_⟩, ?_⟩
        · intro h hcon
          obtain rfl : h0 = h := Option.some.inj hcon
          rfl
        · intro r hr h heq
          simp only [List.mem_singleton] at hr
          subst hr
          obtain rfl : h0 = h := CResult.ok.inj heq
          rfl
      | rejected =>
        simp only [cdStep, hp, if_true]
        refine ⟨⟨h1, h2, h3⟩, ?_⟩
        intro r hr h heq
        simp only [List.mem_singleton] at hr
        subst hr
        exact CResult.noConfusion heq
    · simp only [cdStep, if_neg hp]
      exact ⟨⟨h1, h2, h3⟩, by simp⟩

/-- The cache invariant is preserved by any interleaving of call
phases, and every successful result handed to any caller is the
handle of the single connect attempt. -/
theorem cdRunFrom_inv (outcome : CResult) :
    ∀ (tr : List CDEv) (s : CacheState), cdInv outcome s →
      cdInv outcome (cdRunFrom outcome s tr).1 ∧
      ∀ r ∈ (cdRunFrom outcome s tr).2, ∀ h, r = CResult.ok h → outcome = CResult.ok h := by
  intro tr
  induction tr with
  | nil =>
    intro s hs
    exact ⟨hs, by simp [cdRunFrom]⟩
  | cons e es ih =>
    intro s hs
    have hstep := cdStep_inv outcome s e hs
    have hrest := ih (cdStep outcome s e).1 hstep.1
    simp only [cdRunFrom]
    refine ⟨hrest.1, ?_⟩
    intro r hr h heq
    rcases List.mem_append.mp hr with hr1 | hr2
    · exact hstep.2 r hr1 h heq
    · exact hrest.2 r hr2 h heq

/-- After one failing call, every further call finds the rejected
attempt still cached: the state is frozen and each call returns the
cached rejection. -/
theorem connectDBCalls_rejected_eq (n : Nat) :
    connectDBCalls CResult.rejected (n + 1) =
      ({ conn := none, promise := true, connectCalls := 1 },
        List.replicate (n + 1) CResult.rejected) := by
  induction n with
  | zero => rfl
  | succ k ih =>
    have step : connectDBCalls CResult.rejected (k + 1 + 1) =
        ((connectDB CResult.rejected (connectDBCalls CResult.rejected (k + 1)).1).1,
          (connectDBCalls CResult.rejected (k + 1)).2 ++
            [(connectDB CResult.rejected (connectDBCalls CResult.rejected (k + 1)).1).2]) := rfl
    rw [step, ih]
    show (({ conn := none, promise := true, connectCalls := 1 } : CacheState),
        List.replicate (k + 1) CResult.rejected ++ [CResult.rejected]) =
      (({ conn := none, promise := true, connectCalls := 1 } : CacheState),
        List.replicate (k + 1 + 1) CResult.rejected)
    rw [← List.replicate_succ']

/-- After `n + 1` requests that find a working connection, the
serverless process has created `n + 1` stores from the raw connection
string and holds the cached connection from a single connect call. -/
theorem serveRequests_ok_eq (uri : String) (h : Nat) (n : Nat) :
    serveRequests uri (CResult.ok h) (n + 1) =
      { cache := { conn := some h, promise := true, connectCalls := 1 },
        storeCreates := n + 1,
        storeUrls := List.replicate (n + 1) uri } := by
  induction n with
  | zero => rfl
  | succ k ih =>
    have step : serveRequests uri (CResult.ok h) (k + 1 + 1) =
        sessionMiddlewareRequest uri (CResult.ok h)
          (serveRequests uri (CResult.ok h) (k + 1)) := rfl
    rw [step, ih]
    show VercelState.mk (CacheState.mk (some h) true 1) (k + 1 + 1)
        (List.replicate (k + 1) uri ++ [uri]) =
      VercelState.mk (CacheState.mk (some h) true 1) (k + 1 + 1)
        (List.replicate (k + 1 + 1) uri)
    rw [← List.replicate_succ']

/-! ## Claim theorems -/

/-- C1: the connection accessor is idempotent.  Over every
interleaving of `connectDB` call phases within one process lifetime,
the underlying `mongoose.connect` primitive is invoked at most once,
and every successful result handed to a caller is the handle the
single attempt resolved to — so all callers share one underlying
connection.  In the classic variant, every startup trace contains
exactly one `mongoose.connect` invocation, whose single `clientPromise`
all consumers share. -/
theorem connectDB_idempotent (outcome : CResult) (tr : List CDEv) (env : ClassicEnv) :
    (cdRun outcome tr).1.connectCalls ≤ 1 ∧
    (∀ r ∈ (cdRun outcome tr).2, ∀ h, r = CResult.ok h → outcome = CResult.ok h) ∧
    (classicStartup env).countP ClassicEv.isConnectCall = 1 := by
  have hinit : cdInv outcome cacheInit :=
    ⟨by simp [cacheInit], fun _ => rfl, fun h hc => Option.noConfusion hc⟩
  have hrun := cdRunFrom_inv outcome tr cacheInit hinit
  refine ⟨hrun.1.1, hrun.2, ?_⟩
  obtain ⟨ok, menv⟩ := env
  cases ok with
  | true =>
    simp [classicStartup, List.countP_cons, ClassicEv.isConnectCall,
      countP_map_mig_eq_zero ClassicEv.isConnectCall (fun _ => rfl)]
  | false =>
    simp [classicStartup, List.countP_cons, ClassicEv.isConnectCall]

/-- C1 witness: a concrete interleaving — one call starts the attempt,
it resolves, a second call arrives — returns the same handle to both
callers with a single connect invocation. -/
theorem connectDB_idempotent_witness :
    (cdRun (CResult.ok 7) [CDEv.start, CDEv.finish, CDEv.start]).2 =
      [CResult.ok 7, CResult.ok 7] ∧
    (cdRun (CResult.ok 7) [CDEv.start, CDEv.finish, CDEv.start]).1.connectCalls ≤ 1 :=
  ⟨rfl, (connectDB_idempotent (CResult.ok 7) [CDEv.start, CDEv.finish, CDEv.start]
      { connectOk := true,
        migEnv := ⟨Except.ok (), Except.ok (), Except.ok ()⟩ }).1⟩

/-- C2 counterexample: after a first `connectDB` call whose connection
attempt rejected, a second call does not start a fresh attempt — the
connect counter stays at 1 and the call returns the previously
rejected cached attempt.  The claim that the failed attempt does not
poison the cache is false: `cached.promise` is never cleared
(server.js lines 154-186). -/
theorem connectDB_cache_poisoned :
    (connectDB CResult.rejected (connectDB CResult.rejected cacheInit).1).1.connectCalls = 1 ∧
    (connectDB CResult.rejected (connectDB CResult.rejected cacheInit).1).2 =
      CResult.rejected :=
  ⟨rfl, rfl⟩

/-- C2 amended: when the lazy connection attempt fails, the rejection
is propagated to every call that awaited it — every one of `n`
sequential `connectDB` calls returns the rejection — but the failed
attempt stays cached: the connect primitive is never re-invoked
(`connectCalls` stays at `min n 1`), so no fresh attempt is started
until the process restarts. -/
theorem connectDB_rejection_propagates (n : Nat) :
    (connectDBCalls CResult.rejected n).2 = List.replicate n CResult.rejected ∧
    (connectDBCalls CResult.rejected n).1.connectCalls = min n 1 := by
  cases n with
  | zero => exact ⟨rfl, rfl⟩
  | succ k =>
    rw [connectDBCalls_rejected_eq k]
    refine ⟨rfl, ?_⟩
    show (1 : Nat) = min (k + 1) 1
    omega

/-- C3: every exception raised during the three migration steps is
caught and logged rather than propagated (`runMigration` always
returns without an escaping exception); when `updateMany` succeeded
and the `dropIndex` of the legacy index `supabaseUserId_1` failed, the
failure is swallowed by its `.catch` and `syncIndexes` still runs; and
a classic startup with a successful connection never reaches
`process.exit`, whatever the migration outcomes. -/
theorem migration_failures_swallowed (env : MigrationEnv) :
    (runMigration env).2 = Except.ok () ∧
    (∀ msg, env.updateManyResult = Except.ok () → env.dropIndexResult = Except.error msg →
      MigEv.logIndexNotFound ∈ (runMigration env).1 ∧
      MigEv.syncIndexesCall ∈ (runMigration env).1) ∧
    (classicStartup { connectOk := true, migEnv := env }).countP ClassicEv.isExit = 0 := by
  obtain ⟨u, d, s⟩ := env
  refine ⟨?_, ?_, ?_⟩
  · cases u <;> cases d <;> cases s <;> rfl
  · intro msg hu hd
    cases u with
    | error e => exact Except.noConfusion hu
    | ok _ =>
      cases d with
      | ok _ => exact Except.noConfusion hd
      | error e =>
        cases s <;> simp [runMigration, migrationBody]
  · simp [classicStartup, List.countP_cons, ClassicEv.isExit,
      countP_map_mig_eq_zero ClassicEv.isExit (fun _ => rfl)]

/-- C3 witness: with `updateMany` succeeding, the legacy index
missing (`dropIndex` fails) and `syncIndexes` succeeding, the failure
is swallowed and `syncIndexes` still runs. -/
theorem migration_failures_swallowed_witness :
    MigEv.logIndexNotFound ∈
      (runMigration ⟨Except.ok (), Except.error "index not found", Except.ok ()⟩).1 ∧
    MigEv.syncIndexesCall ∈
      (runMigration ⟨Except.ok (), Except.error "index not found", Except.ok ()⟩).1 :=
  (migration_failures_swallowed
      ⟨Except.ok (), Except.error "index not found", Except.ok ()⟩).2.1
    "index not found" rfl rfl

/-- C4: the migration's first step removes the `supabaseUserId` field
from every document where it is literally null (the field becomes
absent, not null), and leaves every document with a present non-null
value unchanged. -/
theorem updateMany_unsets_null (docs : List FieldVal) (i : Nat) :
    (docs[i]? = some FieldVal.null →
      (updateManyUnsetNull docs)[i]? = some FieldVal.absent) ∧
    (∀ s, docs[i]? = some (FieldVal.str s) →
      (updateManyUnsetNull docs)[i]? = some (FieldVal.str s)) := by
  constructor
  · intro hNull
    simp [updateManyUnsetNull, List.getElem?_map, hNull, matchesNullFilter]
  · intro s hStr
    simp [updateManyUnsetNull, List.getElem?_map, hStr, matchesNullFilter]

/-- C4 witness: in a collection holding a null placeholder and a
real identifier, the null placeholder becomes absent and the real
identifier is untouched. -/
theorem updateMany_unsets_null_witness :
    (updateManyUnsetNull [FieldVal.null, FieldVal.str "uid-1"])[0]? =
      some FieldVal.absent ∧
    (updateManyUnsetNull [FieldVal.null, FieldVal.str "uid-1"])[1]? =
      some (FieldVal.str "uid-1") :=
  ⟨(updateMany_unsets_null [FieldVal.null, FieldVal.str "uid-1"] 0).1 rfl,
    (updateMany_unsets_null [FieldVal.null, FieldVal.str "uid-1"] 1).2 "uid-1" rfl⟩

/-- C5: the session cookie policy per deployment mode.  Classic: the
secure flag holds exactly in production, sameSite is "none" in
production and "lax" otherwise, the store TTL is 14 days (1209600
seconds) and the cookie maxAge is 1 day (86400000 milliseconds).
Serverless: the cookie is always secure with sameSite always "none",
for every environment (the configuration does not read `NODE_ENV`). -/
theorem session_cookie_policy (nodeEnv sessionSecret : Option String) :
    ((classicSessionConfig nodeEnv sessionSecret).cookie.secure = true ↔
      nodeEnv = some "production") ∧
    (nodeEnv = some "production" →
      (classicSessionConfig nodeEnv sessionSecret).cookie.sameSite = "none") ∧
    (nodeEnv ≠ some "production" →
      (classicSessionConfig nodeEnv sessionSecret).cookie.sameSite = "lax") ∧
    (classicSessionConfig nodeEnv sessionSecret).storeTtl = 1209600 ∧
    (classicSessionConfig nodeEnv sessionSecret).cookie.maxAge = 86400000 ∧
    (serverlessSessionConfig sessionSecret).cookie.secure = true ∧
    (serverlessSessionConfig sessionSecret).cookie.sameSite = "none" ∧
    (serverlessSessionConfig sessionSecret).storeTtl = 1209600 ∧
    (serverlessSessionConfig sessionSecret).cookie.maxAge = 86400000 := by
  refine ⟨?_, ?_, ?_, by norm_num [classicSessionConfig], by norm_num [classicSessionConfig],
    rfl, rfl, by norm_num [serverlessSessionConfig], by norm_num [serverlessSessionConfig]⟩
  · simp [classicSessionConfig]
  · intro hprod
    simp [classicSessionConfig, hprod]
  · intro hprod
    simp [classicSessionConfig, hprod]

/-- C5 witness: in production the classic cookie is secure with
sameSite "none"; outside production it is not secure and sameSite is
"lax"; the serverless cookie is secure with sameSite "none" either
way. -/
theorem session_cookie_policy_witness :
    (classicSessionConfig (some "production") none).cookie.sameSite = "none" ∧
    (classicSessionConfig (some "development") none).cookie.sameSite = "lax" ∧
    (classicSessionConfig (some "development") none).cookie.secure = false ∧
    (serverlessSessionConfig none).cookie.secure = true :=
  ⟨(session_cookie_policy (some "production") none).2.1 rfl,
    (session_cookie_policy (some "development") none).2.2.1 (by decide),
    by rfl,
    (session_cookie_policy (some "development") none).2.2.2.2.2.1⟩

/-- C6 counterexample: the serverless error handler ignores the
thrown error's status code — for an error carrying status 404 it
responds 500, not 404 (server.js line 263 hardcodes
`res.status(500)`), so the claim that both variants use the error's
status code is false. -/
theorem serverless_handler_ignores_status :
    (serverlessErrorHandler { status := some 404, message := some "Not Found" }).status = 500 ∧
    (serverlessErrorHandler { status := some 404, message := some "Not Found" }).status ≠ 404 :=
  ⟨rfl, by decide⟩

/-- C6 amended: each terminal error handler sends exactly one JSON
response with `success := false` and a message string (the thrown
message, or "Internal Server Error" when absent).  The classic
variant's status is the thrown error's status code when present and
500 otherwise; the serverless variant's status is always 500. -/
theorem error_handler_responses (st : Option Nat) (ms : Option String)
    (n : Nat) (m : String) :
    (classicErrorHandler { status := st, message := ms }).success = false ∧
    (serverlessErrorHandler { status := st, message := ms }).success = false ∧
    (classicErrorHandler { status := some n, message := ms }).status = n ∧
    (classicErrorHandler { status := none, message := ms }).status = 500 ∧
    (serverlessErrorHandler { status := st, message := ms }).status = 500 ∧
    (classicErrorHandler { status := st, message := some m }).message = m ∧
    (classicErrorHandler { status := st, message := none }).message =
      "Internal Server Error" ∧
    (serverlessErrorHandler { status := st, message := some m }).message = m ∧
    (serverlessErrorHandler { status := st, message := none }).message =
      "Internal Server Error" :=
  ⟨rfl, rfl, rfl, rfl, rfl, rfl, rfl, rfl, rfl⟩

/-- C7: the CORS origin callback accepts every request without an
Origin header, accepts the configured frontend URL and the two fixed
local-development origins, and answers every origin outside the
allow-list with the CORS error, which either variant's terminal error
handler converts to a 500 (non-2xx) failure response. -/
theorem cors_origin_policy (clientUrl : Option String) (u o : String) :
    corsOrigin clientUrl none = CorsDecision.allow ∧
    corsOrigin (some u) (some u) = CorsDecision.allow ∧
    corsOrigin clientUrl (some "http://localhost:5173") = CorsDecision.allow ∧
    corsOrigin clientUrl (some "http://localhost:3000") = CorsDecision.allow ∧
    (some o ∉ allowedOrigins clientUrl →
      corsOrigin clientUrl (some o) = CorsDecision.deny "Not allowed by CORS") ∧
    (classicErrorHandler { status := none, message := some "Not allowed by CORS" }).status
      = 500 ∧
    (serverlessErrorHandler { status := none, message := some "Not allowed by CORS" }).status
      = 500 := by
  refine ⟨rfl, ?_, ?_, ?_, ?_, rfl, rfl⟩
  · simp [corsOrigin, allowedOrigins]
  · simp [corsOrigin, allowedOrigins]
  · simp [corsOrigin, allowedOrigins]
  · intro hnot
    simp [corsOrigin, hnot]

/-- C7 witness: with a configured frontend URL, a request from an
unlisted origin is answered with the CORS error, and a request from a
listed local-development origin is allowed. -/
theorem cors_origin_policy_witness :
    corsOrigin (some "https://app.example") (some "http://evil.example") =
      CorsDecision.deny "Not allowed by CORS" ∧
    corsOrigin (some "https://app.example") (some "http://localhost:5173") =
      CorsDecision.allow :=
  ⟨(cors_origin_policy (some "https://app.example") "x" "http://evil.example").2.2.2.2.1
      (by decide),
    (cors_origin_policy (some "https://app.example") "x" "http://evil.example").2.2.1⟩

/-- C8 counterexample: on a failing initial connection the classic
variant does exit with code 1, but it does not avoid serving — the
startup trace shows `app.listen` is invoked (second event, at module
evaluation) before the rejection triggers `process.exit(1)` (third
event), so "never proceeds to serve requests" is false: the listener
is started regardless of the connection outcome. -/
theorem classic_listen_despite_connect_failure :
    classicStartup
        { connectOk := false,
          migEnv := ⟨Except.ok (), Except.ok (), Except.ok ()⟩ } =
      [ClassicEv.connectCall, ClassicEv.listen, ClassicEv.processExit 1] := rfl

/-- C8 amended: if the initial connection attempt fails the classic
process terminates via `process.exit(1)`, and a successful connection
is the only way to avoid that exit — no other event of a classic
startup is an exit.  However, `app.listen` is invoked unconditionally
at module evaluation, before the connection attempt settles, so the
listener starts in both cases and requests arriving before the
rejection may be served. -/
theorem classic_connect_failure_exits (migEnv : MigrationEnv) :
    classicStartup { connectOk := false, migEnv := migEnv } =
      [ClassicEv.connectCall, ClassicEv.listen, ClassicEv.processExit 1] ∧
    (classicStartup { connectOk := true, migEnv := migEnv }).countP ClassicEv.isExit = 0 ∧
    ClassicEv.listen ∈ classicStartup { connectOk := false, migEnv := migEnv } ∧
    ClassicEv.listen ∈ classicStartup { connectOk := true, migEnv := migEnv } := by
  refine ⟨rfl, ?_, ?_, ?_⟩
  · simp [classicStartup, List.countP_cons, ClassicEv.isExit,
      countP_map_mig_eq_zero ClassicEv.isExit (fun _ => rfl)]
  · simp [classicStartup]
  · simp [classicStartup]

/-- C9: in the serverless variant the session middleware store is
constructed anew on every incoming request: after `n` requests served
with a working connection, `MongoStore.create` has run `n` times, each
time receiving the raw connection string, while the mongoose
connection behind `connectDB` was established by a single connect
call. -/
theorem serverless_store_per_request (uri : String) (h n : Nat) :
    (serveRequests uri (CResult.ok h) n).storeCreates = n ∧
    (serveRequests uri (CResult.ok h) n).storeUrls = List.replicate n uri ∧
    (serveRequests uri (CResult.ok h) n).cache.connectCalls = min n 1 := by
  cases n with
  | zero => exact ⟨rfl, rfl, rfl⟩
  | succ k =>
    rw [serveRequests_ok_eq uri h k]
    refine ⟨rfl, rfl, ?_⟩
    show (1 : Nat) = min (k + 1) 1
    omega

/-- C10: when `SESSION_SECRET` is unset, the classic variant falls
back to the hardcoded constant "secret_fallback_key"; the serverless
variant has no fallback and passes the unset value through.  When the
variable is set, both variants use it. -/
theorem session_secret_fallback (nodeEnv : Option String) (s : String) :
    (classicSessionConfig nodeEnv none).secret = some "secret_fallback_key" ∧
    (serverlessSessionConfig none).secret = none ∧
    (classicSessionConfig nodeEnv (some s)).secret = some s ∧
    (serverlessSessionConfig (some s)).secret = some s :=
  ⟨rfl, rfl, rfl, rfl⟩
